import Mathlib

/-!
Verification of the job-matchmaker application (`src/app.py`).

The development shallowly embeds the `JobMatchmaker` class: user profiles,
the per-job scoring loop of `match_jobs_for_user`, the TTL cache of
`fetch_jobs`, and the notification dispatch of `send_email_notification`.

Modelling conventions:
* Python strings are Lean `String`s; the Python primitives `str.split(',')`,
  `str.strip()`, `str.lower()`, `', '.join(...)` and the substring test
  `a in b` are re-implemented over the character lists so that they are
  executable by the kernel (`pySplit`, `pyStrip`, `pyLower`, `pyJoin`,
  `pyInStr`).
* `fuzz.token_set_ratio` is an external library treated as a black box:
  every statement quantifies over an arbitrary `fuzz : String → String → ℕ`.
* Python floats are modelled as rationals (`ℚ`): the weights `0.3` and `0.2`
  become `3 / 10` and `2 / 10`.
* A JSON job posting is a record of the optional fields the code reads;
  `locationArea = some a` models `"location" in job and "area" in job["location"]`
  holding with area list `a`, and `salary_min : Option (Option Int)`
  distinguishes an absent key (`none`) from a key bound to `None`
  (`some none`).
* Wall-clock instants (`datetime.now()`) are integer parameters measured in
  seconds, and the outcome of each outbound HTTP call is an explicit oracle
  argument (`UpstreamOutcome`, `EmailOutcome`); the number of HTTP requests
  a call issues is returned alongside its result.
-/

/-! ### Python string primitives -/

/-- Characters removed by Python `str.strip()` with no argument. -/
def pyWhitespace (c : Char) : Bool :=
  c = ' ' || c = '\t' || c = '\n' || c = '\r' || c = '\x0b' || c = '\x0c'

/-- Python `str.lower()` (ASCII case folding suffices for this code). -/
def pyLower (s : String) : String :=
  ⟨s.data.map Char.toLower⟩

/-- Python `str.strip()`. -/
def pyStrip (s : String) : String :=
  ⟨((s.data.dropWhile pyWhitespace).reverse.dropWhile pyWhitespace).reverse⟩

/-- Worker for `pySplit`: splits a character list at every separator. -/
def pySplitAux (sep : Char) (cur : List Char) : List Char → List (List Char)
  | [] => [cur.reverse]
  | c :: cs =>
      if c = sep then cur.reverse :: pySplitAux sep [] cs
      else pySplitAux sep (c :: cur) cs

/-- Python `s.split(sep)` with a one-character separator: splits at every
occurrence, never drops empty pieces, and returns `[""]` on `""`. -/
def pySplit (sep : Char) (s : String) : List String :=
  (pySplitAux sep [] s.data).map List.asString

/-- Does `needle` occur at the head of `hay`? -/
def listStartsWith [DecidableEq α] : List α → List α → Bool
  | [], _ => true
  | _ :: _, [] => false
  | a :: as, b :: bs => a = b && listStartsWith as bs

/-- Does `needle` occur contiguously anywhere in `hay`? -/
def listContainsSub [DecidableEq α] (needle : List α) : List α → Bool
  | [] => needle.isEmpty
  | a :: as => listStartsWith needle (a :: as) || listContainsSub needle as

/-- Python substring test `needle in hay`. -/
def pyInStr (needle hay : String) : Bool :=
  listContainsSub needle.data hay.data

/-- Python `sep.join(parts)`. -/
def pyJoin (sep : String) : List String → String
  | [] => ""
  | [s] => s
  | s :: rest => s ++ sep ++ pyJoin sep rest

/-! ### Data model (`src/app.py` lines 20-37) -/

/-- The fields of an upstream job posting that `app.py` reads while scoring.
`locationArea = some a` models that both `"location" in job` and
`"area" in job["location"]` hold, with area list `a`; `salary_min = some none`
models the key being present but bound to JSON `null`. -/
structure Job where
  title : Option String
  description : Option String
  locationArea : Option (List String)
  salary_min : Option (Option Int)
  deriving DecidableEq, Repr

/-- A registered user, as built by `JobMatchmaker.add_user`. -/
structure UserProfile where
  name : String
  email : String
  location : String
  roles : List String
  skills : List String
  min_salary : Int
  last_notified : Option Int
  deriving DecidableEq, Repr

/-- `JobMatchmaker.add_user` (lines 26-37): roles are comma-split and
stripped, skills are comma-split, stripped and lowercased, and
`last_notified` starts as `None`. -/
def add_user (name email location roles skills : String) (min_salary : Int) :
    UserProfile :=
  { name := name
    email := email
    location := location
    roles := (pySplit ',' roles).map pyStrip
    skills := (pySplit ',' skills).map (fun skill => pyLower (pyStrip skill))
    min_salary := min_salary
    last_notified := none }

/-- One entry of the `matched_jobs` list built in `match_jobs_for_user`
(lines 118-122). -/
structure MatchResult where
  job : Job
  score : ℚ
  matched_skills : List String
  deriving DecidableEq, Repr

/-! ### The scoring loop (`match_jobs_for_user`, lines 88-122) -/

/-- The skill loop of lines 99-103: starting from accumulator `acc`
(`skill_score`, `matched_skills`), each skill whose lowercase form occurs in
the lowercased description adds 10 and is appended. -/
def skillLoop (descrLower : String) : List String → ℕ × List String → ℕ × List String
  | [], acc => acc
  | skill :: rest, acc =>
      skillLoop descrLower rest
        (if pyInStr (pyLower skill) descrLower then (acc.1 + 10, acc.2 ++ [skill])
         else acc)

/-- The body of the `for job in jobs_data["results"]` loop (lines 89-115):
the final `score` and `matched_skills` for one posting. -/
def scoreJob (fuzz : String → String → ℕ) (user : UserProfile) (role : String)
    (job : Job) : ℚ × List String :=
  let score : ℚ := 0
  let matched_skills : List String := []
  -- lines 93-95: title component
  let score : ℚ :=
    match job.title with
    | some title => score + (fuzz (pyLower role) (pyLower title) : ℚ) * (3 / 10)
    | none => score
  -- lines 98-104: skill component
  let sm : ℚ × List String :=
    match job.description with
    | some descr =>
        let r := skillLoop (pyLower descr) user.skills (0, matched_skills)
        (score + ((min r.1 50 : ℕ) : ℚ), r.2)
    | none => (score, matched_skills)
  -- lines 107-110: location component
  let score : ℚ :=
    match job.locationArea with
    | some area =>
        sm.1 + (fuzz (pyLower user.location) (pyLower (pyJoin ", " area)) : ℚ) * (2 / 10)
    | none => sm.1
  -- lines 113-115: salary bonus
  let score : ℚ :=
    match job.salary_min with
    | some (some salary) => if salary ≥ user.min_salary then score + 10 else score
    | _ => score
  (score, sm.2)

/-! ### The four scoring components, named for the specification -/

/-- Title relevance: fuzzy similarity of role vs. job title, weighted 0.3. -/
def titleComponent (fuzz : String → String → ℕ) (role : String) (job : Job) : ℚ :=
  match job.title with
  | some title => (fuzz (pyLower role) (pyLower title) : ℚ) * (3 / 10)
  | none => 0

/-- The user skills matching the description case-insensitively, in order. -/
def matchedSkills (skills : List String) (descr : String) : List String :=
  skills.filter (fun skill => pyInStr (pyLower skill) (pyLower descr))

/-- Skill overlap: 10 points per matched skill, capped at 50. -/
def skillComponent (skills : List String) (job : Job) : ℚ :=
  match job.description with
  | some descr => ((min (10 * (matchedSkills skills descr).length) 50 : ℕ) : ℚ)
  | none => 0

/-- Location relevance: fuzzy similarity of user location vs. comma-joined
area list, weighted 0.2. -/
def locationComponent (fuzz : String → String → ℕ) (user : UserProfile)
    (job : Job) : ℚ :=
  match job.locationArea with
  | some area => (fuzz (pyLower user.location) (pyLower (pyJoin ", " area)) : ℚ) * (2 / 10)
  | none => 0

/-- Salary eligibility: flat 10 when `salary_min` is present, non-null and at
least the user's minimum. -/
def salaryComponent (user : UserProfile) (job : Job) : ℚ :=
  match job.salary_min with
  | some (some salary) => if salary ≥ user.min_salary then 10 else 0
  | _ => 0

theorem skillLoop_eq (d : String) (skills : List String) (n : ℕ) (l : List String) :
    skillLoop d skills (n, l)
      = (n + 10 * (skills.filter (fun s => pyInStr (pyLower s) d)).length,
         l ++ skills.filter (fun s => pyInStr (pyLower s) d)) := by
  induction skills generalizing n l with
  | nil => simp [skillLoop]
  | cons s rest ih =>
      by_cases h : pyInStr (pyLower s) d
      · simp only [skillLoop, h, if_pos, List.filter_cons, ih, List.length_cons]
        refine Prod.ext ?_ ?_ <;> simp [h]
        · ring
      · simp only [skillLoop, h, List.filter_cons, ih]
        simp [h]

/-- C1: for every fuzz oracle, user, role and posting, the scoring loop's
score is the sum of the four components — title similarity weighted 0.3,
skill matches at 10 points each capped at 50, location similarity weighted
0.2, and a flat 10 salary bonus — and each component is 0 when its field is
absent (or, for the salary, bound to null). -/
theorem scoreJob_eq_sum_components (fuzz : String → String → ℕ)
    (user : UserProfile) (role : String) (job : Job) :
    (scoreJob fuzz user role job).1
      = titleComponent fuzz role job + skillComponent user.skills job
        + locationComponent fuzz user job + salaryComponent user job
    ∧ (job.title = none → titleComponent fuzz role job = 0)
    ∧ (job.description = none → skillComponent user.skills job = 0)
    ∧ (job.locationArea = none → locationComponent fuzz user job = 0)
    ∧ (job.salary_min = none → salaryComponent user job = 0)
    ∧ (job.salary_min = some none → salaryComponent user job = 0) := by
  obtain ⟨title, descr, area, sal⟩ := job
  refine ⟨?_, ?_, ?_, ?_, ?_, ?_⟩
  · cases title <;> cases descr <;> cases area <;> rcases sal with _ | (_ | s) <;>
      simp [scoreJob, titleComponent, skillComponent, locationComponent,
        salaryComponent, matchedSkills, skillLoop_eq] <;>
      split_ifs <;> ring
  · intro h
    cases h
    simp [titleComponent]
  · intro h
    cases h
    simp [skillComponent]
  · intro h
    cases h
    simp [locationComponent]
  · intro h
    cases h
    simp [salaryComponent]
  · intro h
    cases h
    simp [salaryComponent]

/-- A fixed fuzz oracle used to instantiate black-box statements. -/
def fuzz0 : String → String → ℕ := fun _ _ => 80

/-- A concrete user for instantiating the theorems. -/
def user0 : UserProfile :=
  { name := "Ada"
    email := "ada@example.com"
    location := "London"
    roles := ["Data Analyst"]
    skills := ["python", "sql"]
    min_salary := 50000
    last_notified := none }

/-- A concrete posting with every optional field present. -/
def job0 : Job :=
  { title := some "Data Analyst"
    description := some "We use Python and SQL daily."
    locationArea := some ["UK", "London"]
    salary_min := some (some 55000) }

/-- C1 instantiated at a concrete fuzz oracle, user, role and posting. -/
theorem scoreJob_eq_sum_components_witness :
    (scoreJob fuzz0 user0 "Data Analyst" job0).1
      = titleComponent fuzz0 "Data Analyst" job0 + skillComponent user0.skills job0
        + locationComponent fuzz0 user0 job0 + salaryComponent user0 job0
    ∧ (job0.title = none → titleComponent fuzz0 "Data Analyst" job0 = 0)
    ∧ (job0.description = none → skillComponent user0.skills job0 = 0)
    ∧ (job0.locationArea = none → locationComponent fuzz0 user0 job0 = 0)
    ∧ (job0.salary_min = none → salaryComponent user0 job0 = 0)
    ∧ (job0.salary_min = some none → salaryComponent user0 job0 = 0) :=
  scoreJob_eq_sum_components fuzz0 user0 "Data Analyst" job0

/-! ### Fetch results and the per-user matching pipeline (lines 79-126) -/

/-- The parsed JSON body a `fetch_jobs` call returns: the upstream `results`
list when the key is present, plus the `error` field the failure marker
carries. -/
structure JobsData where
  results : Option (List Job)
  error : Option String
  deriving DecidableEq, Repr

/-- Inner loop of lines 88-122 restricted to one role's `results` list:
every posting scoring strictly above 60 is appended, in listing order. -/
def collectRole (fuzz : String → String → ℕ) (user : UserProfile) (role : String) :
    List Job → List MatchResult
  | [] => []
  | job :: rest =>
      let r := scoreJob fuzz user role job
      if r.1 > 60 then
        { job := job, score := r.1, matched_skills := r.2 }
          :: collectRole fuzz user role rest
      else collectRole fuzz user role rest

/-- The `for role in user["roles"]` loop of lines 82-122.  `fetch` abstracts
`self.fetch_jobs(role, user["location"])`: it yields whatever body that call
returns for the role (within one run the cache makes repeated calls with the
same key agree, so a function of the role is faithful).  A body without a
`results` key is skipped (`continue`, line 86). -/
def rolesLoop (fuzz : String → String → ℕ) (fetch : String → JobsData)
    (user : UserProfile) : List String → List MatchResult
  | [] => []
  | role :: rest =>
      (match (fetch role).results with
       | none => []
       | some jobs => collectRole fuzz user role jobs)
        ++ rolesLoop fuzz fetch user rest

/-- All qualifying matches of one run, in encounter order: roles in profile
order, postings in upstream listing order. -/
def qualifyingJobs (fuzz : String → String → ℕ) (fetch : String → JobsData)
    (user : UserProfile) : List MatchResult :=
  rolesLoop fuzz fetch user user.roles

/-- Descending stable insertion: the new element goes in front of the first
element whose score is not larger. -/
def insertDesc (a : MatchResult) : List MatchResult → List MatchResult
  | [] => [a]
  | b :: bs => if b.score ≤ a.score then a :: b :: bs else b :: insertDesc a bs

/-- The effect of `matched_jobs.sort(key=lambda x: x["score"], reverse=True)`
(line 125): Python's sort is stable, and a stable descending sort has a
unique output, here realised by insertion. -/
def pySortDesc : List MatchResult → List MatchResult
  | [] => []
  | a :: as => insertDesc a (pySortDesc as)

/-- `JobMatchmaker.match_jobs_for_user` (lines 79-126): collect qualifying
matches across the user's roles, sort by descending score, keep the top 5. -/
def match_jobs_for_user (fuzz : String → String → ℕ) (fetch : String → JobsData)
    (user : UserProfile) : List MatchResult :=
  (pySortDesc (qualifyingJobs fuzz fetch user)).take 5

/-- Descending-score order between match results. -/
def scoreGe (a b : MatchResult) : Prop := b.score ≤ a.score

theorem mem_insertDesc {a x : MatchResult} {l : List MatchResult} :
    x ∈ insertDesc a l ↔ x = a ∨ x ∈ l := by
  induction l with
  | nil => simp [insertDesc]
  | cons b bs ih =>
      rw [insertDesc]
      split
      · simp
      · simp [ih]
        tauto

theorem mem_pySortDesc {x : MatchResult} {l : List MatchResult} :
    x ∈ pySortDesc l ↔ x ∈ l := by
  induction l with
  | nil => simp [pySortDesc]
  | cons a as ih => rw [pySortDesc]; simp [mem_insertDesc, ih]

theorem pairwise_insertDesc {a : MatchResult} {l : List MatchResult}
    (h : List.Pairwise scoreGe l) : List.Pairwise scoreGe (insertDesc a l) := by
  induction l with
  | nil => simp [insertDesc, scoreGe]
  | cons b bs ih =>
      rw [insertDesc]
      rcases h with _ | ⟨hb, hbs⟩
      split
      · rename_i hba
        refine List.Pairwise.cons ?_ (List.Pairwise.cons hb hbs)
        intro c hc
        rcases List.mem_cons.1 hc with rfl | hc
        · exact hba
        · exact le_trans (hb c hc) hba
      · rename_i hba
        refine List.Pairwise.cons ?_ (ih hbs)
        intro c hc
        rcases mem_insertDesc.1 hc with rfl | hc
        · exact le_of_lt (lt_of_not_le hba)
        · exact hb c hc

theorem pairwise_pySortDesc (l : List MatchResult) :
    List.Pairwise scoreGe (pySortDesc l) := by
  induction l with
  | nil => simp [pySortDesc]
  | cons a as ih => rw [pySortDesc]; exact pairwise_insertDesc ih

theorem filter_insertDesc (q : ℚ) (a : MatchResult) (l : List MatchResult) :
    (insertDesc a l).filter (fun m => decide (m.score = q))
      = if a.score = q then a :: l.filter (fun m => decide (m.score = q))
        else l.filter (fun m => decide (m.score = q)) := by
  induction l with
  | nil =>
      rw [insertDesc]
      by_cases h : a.score = q <;> simp [List.filter_cons, h]
  | cons b bs ih =>
      rw [insertDesc]
      split
      · rename_i hba
        by_cases ha : a.score = q <;> simp [List.filter_cons, ha]
      · rename_i hba
        by_cases hb : b.score = q
        · by_cases ha : a.score = q
          · exact absurd (le_of_eq (hb.trans ha.symm)) hba
          · simp [List.filter_cons, hb, ha, ih]
        · by_cases ha : a.score = q <;> simp [List.filter_cons, hb, ha, ih]

theorem filter_pySortDesc (q : ℚ) (l : List MatchResult) :
    (pySortDesc l).filter (fun m => decide (m.score = q))
      = l.filter (fun m => decide (m.score = q)) := by
  induction l with
  | nil => rfl
  | cons a as ih =>
      rw [pySortDesc, filter_insertDesc, ih]
      by_cases h : a.score = q <;> simp [List.filter_cons, h]

theorem score_gt_of_mem_collectRole {fuzz : String → String → ℕ}
    {user : UserProfile} {role : String} {jobs : List Job} {m : MatchResult}
    (h : m ∈ collectRole fuzz user role jobs) : 60 < m.score := by
  induction jobs with
  | nil => simp [collectRole] at h
  | cons j rest ih =>
      rw [collectRole] at h
      split at h
      · rcases List.mem_cons.1 h with rfl | h2
        · rename_i hgt
          exact hgt
        · exact ih h2
      · exact ih h

theorem score_gt_of_mem_rolesLoop {fuzz : String → String → ℕ}
    {fetch : String → JobsData} {user : UserProfile} {roles : List String}
    {m : MatchResult} (h : m ∈ rolesLoop fuzz fetch user roles) : 60 < m.score := by
  induction roles with
  | nil => simp [rolesLoop] at h
  | cons role rest ih =>
      rw [rolesLoop] at h
      rcases List.mem_append.1 h with h1 | h1
      · rcases hres : (fetch role).results with _ | jobs
        · rw [hres] at h1; simp at h1
        · rw [hres] at h1; exact score_gt_of_mem_collectRole h1
      · exact ih h1

/-- C2: whatever the fetches return, the list `match_jobs_for_user` produces
has length at most 5 and every member scores strictly above 60. -/
theorem match_jobs_le_5_and_score_gt_60 (fuzz : String → String → ℕ)
    (fetch : String → JobsData) (user : UserProfile) :
    (match_jobs_for_user fuzz fetch user).length ≤ 5
    ∧ ∀ m ∈ match_jobs_for_user fuzz fetch user, 60 < m.score := by
  constructor
  · exact List.length_take_le 5 _
  · intro m hm
    have h1 : m ∈ pySortDesc (qualifyingJobs fuzz fetch user) :=
      List.mem_of_mem_take hm
    exact score_gt_of_mem_rolesLoop (mem_pySortDesc.1 h1)

/-- C2 instantiated at a concrete fuzz oracle, fetch oracle and user. -/
theorem match_jobs_le_5_and_score_gt_60_witness :
    (match_jobs_for_user fuzz0 (fun _ => ⟨some [job0], none⟩) user0).length ≤ 5
    ∧ ∀ m ∈ match_jobs_for_user fuzz0 (fun _ => ⟨some [job0], none⟩) user0,
        60 < m.score :=
  match_jobs_le_5_and_score_gt_60 fuzz0 (fun _ => ⟨some [job0], none⟩) user0

/-- C3: the returned match list is sorted by descending score, and for every
score value the matches carrying it appear as a subsequence of the
qualifying matches in encounter order (roles in profile order, postings in
listing order) — equal scores keep their original relative order. -/
theorem match_jobs_sorted_and_stable (fuzz : String → String → ℕ)
    (fetch : String → JobsData) (user : UserProfile) :
    List.Pairwise scoreGe (match_jobs_for_user fuzz fetch user)
    ∧ ∀ q : ℚ, List.Sublist
        ((match_jobs_for_user fuzz fetch user).filter (fun m => decide (m.score = q)))
        ((qualifyingJobs fuzz fetch user).filter (fun m => decide (m.score = q))) := by
  constructor
  · exact (pairwise_pySortDesc _).sublist (List.take_sublist 5 _)
  · intro q
    have h1 := (List.take_sublist 5 (pySortDesc (qualifyingJobs fuzz fetch user))).filter
      (fun m => decide (m.score = q))
    rw [filter_pySortDesc] at h1
    exact h1

/-- C3 instantiated at a concrete fuzz oracle, fetch oracle and user. -/
theorem match_jobs_sorted_and_stable_witness :
    List.Pairwise scoreGe (match_jobs_for_user fuzz0 (fun _ => ⟨some [job0], none⟩) user0)
    ∧ ∀ q : ℚ, List.Sublist
        ((match_jobs_for_user fuzz0 (fun _ => ⟨some [job0], none⟩) user0).filter
          (fun m => decide (m.score = q)))
        ((qualifyingJobs fuzz0 (fun _ => ⟨some [job0], none⟩) user0).filter
          (fun m => decide (m.score = q))) :=
  match_jobs_sorted_and_stable fuzz0 (fun _ => ⟨some [job0], none⟩) user0

/-! ### The fetch/cache layer (`fetch_jobs`, lines 39-77) -/

/-- One entry of `self.job_cache` (lines 68-71). -/
structure CacheEntry where
  timestamp : Int
  data : JobsData
  deriving DecidableEq, Repr

/-- The `self.job_cache` dictionary, as a partial map from key strings. -/
abbrev JobCache := String → Option CacheEntry

/-- Outcome of the one upstream HTTP request a `fetch_jobs` call may issue:
either a parsed 2xx body, or the exception text of a network error or
non-2xx status (`response.raise_for_status()`). -/
inductive UpstreamOutcome where
  | success (data : JobsData)
  | failure (msg : String)
  deriving DecidableEq, Repr

/-- Result of a `fetch_jobs` call: the returned body, the cache afterwards,
and how many upstream HTTP requests the call issued. -/
structure FetchOutput where
  data : JobsData
  cache : JobCache
  requests : ℕ

/-- Line 41: `cache_key = f"{query}_{location}_{country}"`. -/
def cacheKey (query location country : String) : String :=
  query ++ "_" ++ location ++ "_" ++ country

/-- Lines 57-77: the single upstream request.  On success the parsed body is
stored under `key` with the current timestamp and returned; on failure the
marker `{"results": [], "error": ...}` is returned and the cache is left as
it was. -/
def doRequest (now : Int) (upstream : UpstreamOutcome) (cache : JobCache)
    (key : String) : FetchOutput :=
  match upstream with
  | .success d =>
      { data := d
        cache := fun k => if k = key then some { timestamp := now, data := d } else cache k
        requests := 1 }
  | .failure msg =>
      { data := { results := some [], error := some ("Error fetching jobs: " ++ msg) }
        cache := cache
        requests := 1 }

/-- `JobMatchmaker.fetch_jobs` (lines 39-77): a cache hit younger than 86400
seconds is returned as-is with no request; otherwise the upstream request is
made. -/
def fetch_jobs (now : Int) (upstream : UpstreamOutcome) (cache : JobCache)
    (query location country : String) : FetchOutput :=
  let key := cacheKey query location country
  match cache key with
  | some entry =>
      if now - entry.timestamp < 86400 then
        { data := entry.data, cache := cache, requests := 0 }
      else doRequest now upstream cache key
  | none => doRequest now upstream cache key

/-- The cache holds an entry under `key` younger than 24 hours at `now`. -/
def freshHit (cache : JobCache) (now : Int) (key : String) : Prop :=
  ∃ e, cache key = some e ∧ now - e.timestamp < 86400

/-- A distinctive payload for the cache-behaviour instances. -/
def payload1 : JobsData := { results := none, error := some "payload-one" }

/-- A second distinctive payload. -/
def payload2 : JobsData := { results := none, error := some "payload-two" }

/-- A cache holding exactly one entry, stored at time 0 under the key of
`("q", "l", "gb")`. -/
def staleCache : JobCache :=
  fun k => if k = cacheKey "q" "l" "gb" then some { timestamp := 0, data := payload1 }
           else none

/-- C4 counterexample: at `now = 86400` the entry of `staleCache` is exactly
24 hours old, so the claim requires the call to overwrite it; the code does
issue the upstream request, but when that request fails the entry is left
untouched (timestamp still 0), so "issues a new upstream request and
overwrites the entry" is false as stated. -/
theorem fetch_jobs_stale_failure_keeps_entry :
    staleCache (cacheKey "q" "l" "gb") = some { timestamp := 0, data := payload1 }
    ∧ ¬ ((86400 : Int) - 0 < 86400)
    ∧ (fetch_jobs 86400 (.failure "boom") staleCache "q" "l" "gb").requests = 1
    ∧ (fetch_jobs 86400 (.failure "boom") staleCache "q" "l" "gb").cache
        (cacheKey "q" "l" "gb")
      = some { timestamp := 0, data := payload1 } := by
  refine ⟨rfl, by decide, rfl, rfl⟩

/-- C4 (amended): a hit younger than 24 hours is returned unchanged with no
upstream request; a hit 24 hours old or older triggers exactly one upstream
request, which on success overwrites the entry with the fresh payload and
timestamp, and on failure leaves the cache unchanged. -/
theorem fetch_jobs_cache_ttl (now : Int) (upstream : UpstreamOutcome)
    (cache : JobCache) (query location country : String) (entry : CacheEntry)
    (hhit : cache (cacheKey query location country) = some entry) :
    (now - entry.timestamp < 86400 →
      fetch_jobs now upstream cache query location country
        = { data := entry.data, cache := cache, requests := 0 })
    ∧ (86400 ≤ now - entry.timestamp →
        (fetch_jobs now upstream cache query location country).requests = 1
        ∧ (∀ d, upstream = .success d →
            (fetch_jobs now upstream cache query location country).cache
                (cacheKey query location country)
              = some { timestamp := now, data := d }
            ∧ (fetch_jobs now upstream cache query location country).data = d)
        ∧ (∀ msg, upstream = .failure msg →
            (fetch_jobs now upstream cache query location country).cache = cache)) := by
  constructor
  · intro hfresh
    rw [fetch_jobs]
    simp only [hhit, hfresh, if_pos]
  · intro hstale
    have hnotlt : ¬ (now - entry.timestamp < 86400) := not_lt.2 hstale
    rw [fetch_jobs]
    simp only [hhit, hnotlt, if_neg, not_false_iff]
    refine ⟨?_, ?_, ?_⟩
    · cases upstream <;> rfl
    · intro d hd
      cases hd
      simp [doRequest]
    · intro msg hmsg
      cases hmsg
      rfl

/-- C4 (amended) instantiated: the stored entry of `staleCache` is fresh at
`now = 10` and stale at `now = 86400`. -/
theorem fetch_jobs_cache_ttl_witness :
    ((10 : Int) - 0 < 86400 →
      fetch_jobs 10 (.success payload2) staleCache "q" "l" "gb"
        = { data := payload1, cache := staleCache, requests := 0 })
    ∧ (86400 ≤ (10 : Int) - 0 →
        (fetch_jobs 10 (.success payload2) staleCache "q" "l" "gb").requests = 1
        ∧ (∀ d, (UpstreamOutcome.success payload2) = .success d →
            (fetch_jobs 10 (.success payload2) staleCache "q" "l" "gb").cache
                (cacheKey "q" "l" "gb")
              = some { timestamp := 10, data := d }
            ∧ (fetch_jobs 10 (.success payload2) staleCache "q" "l" "gb").data = d)
        ∧ (∀ msg, (UpstreamOutcome.success payload2) = .failure msg →
            (fetch_jobs 10 (.success payload2) staleCache "q" "l" "gb").cache
              = staleCache)) :=
  fetch_jobs_cache_ttl 10 (.success payload2) staleCache "q" "l" "gb"
    { timestamp := 0, data := payload1 } rfl

/-- The cache after an initial successful fetch for `("a_b", "c", "gb")`. -/
def collidedCache : JobCache :=
  (fetch_jobs 0 (.success payload1) (fun _ => none) "a_b" "c" "gb").cache

/-- C5 counterexample: the triples `("a_b", "c", "gb")` and
`("a", "b_c", "gb")` differ, yet both map to the key string `"a_b_c_gb"`, so
after the first call caches `payload1`, a later call for the second triple
returns `payload1` from cache without any upstream request. -/
theorem fetch_jobs_key_collision :
    (("a_b", "c", "gb") : String × String × String) ≠ ("a", "b_c", "gb")
    ∧ (fetch_jobs 1 (.success payload2) collidedCache "a" "b_c" "gb").data = payload1
    ∧ (fetch_jobs 1 (.success payload2) collidedCache "a" "b_c" "gb").requests = 0 := by
  refine ⟨by decide, rfl, rfl⟩

theorem fetch_jobs_cache_frame (now : Int) (upstream : UpstreamOutcome)
    (cache : JobCache) (query location country k : String)
    (hk : k ≠ cacheKey query location country) :
    (fetch_jobs now upstream cache query location country).cache k = cache k := by
  rcases h : cache (cacheKey query location country) with _ | entry
  · simp only [fetch_jobs, h]
    cases upstream <;> simp [doRequest, hk]
  · simp only [fetch_jobs, h]
    split
    · rfl
    · cases upstream <;> simp [doRequest, hk]

theorem fetch_jobs_reads_own_key (now : Int) (upstream : UpstreamOutcome)
    (cache1 cache2 : JobCache) (query location country : String)
    (hsame : cache1 (cacheKey query location country)
      = cache2 (cacheKey query location country)) :
    (fetch_jobs now upstream cache1 query location country).data
      = (fetch_jobs now upstream cache2 query location country).data
    ∧ (fetch_jobs now upstream cache1 query location country).requests
      = (fetch_jobs now upstream cache2 query location country).requests := by
  have h1 := hsame
  rcases h2 : cache2 (cacheKey query location country) with _ | entry
  · rw [h2] at h1
    simp only [fetch_jobs, h1, h2]
    cases upstream <;> exact ⟨rfl, rfl⟩
  · rw [h2] at h1
    simp only [fetch_jobs, h1, h2]
    split
    · exact ⟨rfl, rfl⟩
    · cases upstream <;> exact ⟨rfl, rfl⟩

/-- C5 (amended): cache entries are keyed by the joined string
`query_location_country`; whenever two calls' joined key strings differ, the
first call is invisible to the second — its payload and request count are
exactly those of a run where the first call never happened.  (Distinct
triples whose joined strings coincide, such as `("a_b", "c", "gb")` and
`("a", "b_c", "gb")`, do share one entry.) -/
theorem fetch_jobs_distinct_keys_no_crosstalk (now1 now2 : Int)
    (up1 up2 : UpstreamOutcome) (cache : JobCache)
    (q1 l1 c1 q2 l2 c2 : String)
    (hne : cacheKey q2 l2 c2 ≠ cacheKey q1 l1 c1) :
    (fetch_jobs now2 up2 (fetch_jobs now1 up1 cache q1 l1 c1).cache q2 l2 c2).data
      = (fetch_jobs now2 up2 cache q2 l2 c2).data
    ∧ (fetch_jobs now2 up2 (fetch_jobs now1 up1 cache q1 l1 c1).cache q2 l2 c2).requests
      = (fetch_jobs now2 up2 cache q2 l2 c2).requests :=
  fetch_jobs_reads_own_key now2 up2 _ cache q2 l2 c2
    (fetch_jobs_cache_frame now1 up1 cache q1 l1 c1 _ hne)

/-- C5 (amended) instantiated: keys of `("x", "y", "gb")` and
`("q", "l", "gb")` differ, so a fetch for the former is unaffected by a
preceding fetch for the latter. -/
theorem fetch_jobs_distinct_keys_no_crosstalk_witness :
    (fetch_jobs 1 (.success payload2)
        (fetch_jobs 0 (.success payload1) (fun _ => none) "q" "l" "gb").cache
        "x" "y" "gb").data
      = (fetch_jobs 1 (.success payload2) (fun _ => none) "x" "y" "gb").data
    ∧ (fetch_jobs 1 (.success payload2)
        (fetch_jobs 0 (.success payload1) (fun _ => none) "q" "l" "gb").cache
        "x" "y" "gb").requests
      = (fetch_jobs 1 (.success payload2) (fun _ => none) "x" "y" "gb").requests :=
  fetch_jobs_distinct_keys_no_crosstalk 0 1 (.success payload1) (.success payload2)
    (fun _ => none) "q" "l" "gb" "x" "y" "gb" (by decide)

/-- C6: when the call misses a fresh cache entry and the upstream request
fails, `fetch_jobs` returns the marker with an empty `results` list and an
error description, leaves the cache exactly as it was, and issues exactly
one upstream request (no retry). -/
theorem fetch_jobs_failure_behavior (now : Int) (msg : String) (cache : JobCache)
    (query location country : String)
    (hmiss : ¬ freshHit cache now (cacheKey query location country)) :
    (fetch_jobs now (.failure msg) cache query location country).data
      = { results := some [], error := some ("Error fetching jobs: " ++ msg) }
    ∧ (fetch_jobs now (.failure msg) cache query location country).cache = cache
    ∧ (fetch_jobs now (.failure msg) cache query location country).requests = 1 := by
  rw [fetch_jobs]
  rcases h : cache (cacheKey query location country) with _ | entry
  · exact ⟨rfl, rfl, rfl⟩
  · have hstale : ¬ (now - entry.timestamp < 86400) := by
      intro hlt
      exact hmiss ⟨entry, h, hlt⟩
    simp only [hstale, if_neg, not_false_iff]
    exact ⟨rfl, rfl, rfl⟩

/-- C6 instantiated on the empty cache. -/
theorem fetch_jobs_failure_behavior_witness :
    (fetch_jobs 0 (.failure "boom") (fun _ => none) "q" "l" "gb").data
      = { results := some [], error := some ("Error fetching jobs: " ++ "boom") }
    ∧ (fetch_jobs 0 (.failure "boom") (fun _ => none) "q" "l" "gb").cache
      = (fun _ => none)
    ∧ (fetch_jobs 0 (.failure "boom") (fun _ => none) "q" "l" "gb").requests = 1 :=
  fetch_jobs_failure_behavior 0 "boom" (fun _ => none) "q" "l" "gb"
    (by simp [freshHit])

/-! ### The notification dispatcher (`send_email_notification`, lines 128-178) -/

/-- Outcome of the one email API call a non-empty notification performs:
the HTTP status and body, or the exception text of a transport error. -/
inductive EmailOutcome where
  | response (status : ℕ) (body : String)
  | transportError (msg : String)
  deriving DecidableEq, Repr

/-- Result of `send_email_notification`: the returned message, the user
afterwards, and how many email API calls were performed. -/
structure NotifyOutput where
  message : String
  user : UserProfile
  emailCalls : ℕ
  deriving DecidableEq, Repr

/-- `JobMatchmaker.send_email_notification` (lines 128-178): an empty match
list short-circuits before any email call; otherwise one call is made, a
non-200 status or a transport error is reported as an error with the user
untouched, and a 200 status sets `last_notified` to the current time.  (The
rendered `email_body` only feeds the outbound payload and is not modelled.) -/
def send_email_notification (now : Int) (emailApi : EmailOutcome)
    (user : UserProfile) (matched_jobs : List MatchResult) : NotifyOutput :=
  if matched_jobs.isEmpty then
    { message := "No matching jobs found", user := user, emailCalls := 0 }
  else
    match emailApi with
    | .response status body =>
        if status ≠ 200 then
          { message := "Error sending email: " ++ body, user := user, emailCalls := 1 }
        else
          { message := "Notification sent to " ++ user.email
            user := { user with last_notified := some now }
            emailCalls := 1 }
    | .transportError msg =>
        { message := "Error sending email: " ++ msg, user := user, emailCalls := 1 }

/-- A qualifying match used to exercise the notifier. -/
def match0 : MatchResult :=
  { job := job0, score := 70, matched_skills := ["python"] }

/-- C7 counterexample: 201 is a 2xx status, yet the code (line 170 tests
`status != 200`) reports the error message and leaves the user untouched, so
"for every 2xx response it reports success" is false as stated. -/
theorem send_email_201_reports_failure :
    (200 ≤ 201 ∧ 201 < 300)
    ∧ (send_email_notification 5 (.response 201 "created") user0 [match0]).message
      = "Error sending email: created"
    ∧ (send_email_notification 5 (.response 201 "created") user0 [match0]).user
      = user0 := by
  refine ⟨by decide, rfl, rfl⟩

/-- C7 (amended): with a non-empty match list, the notifier reports success
exactly when the email API responds with status 200; every other status
(2xx included) and every transport error is reported as a failure. -/
theorem send_email_success_iff_status_200 (now : Int) (emailApi : EmailOutcome)
    (user : UserProfile) (matched_jobs : List MatchResult)
    (hne : matched_jobs ≠ []) :
    (∀ body, emailApi = .response 200 body →
      (send_email_notification now emailApi user matched_jobs).message
        = "Notification sent to " ++ user.email)
    ∧ (∀ status body, emailApi = .response status body → status ≠ 200 →
        (send_email_notification now emailApi user matched_jobs).message
          = "Error sending email: " ++ body)
    ∧ (∀ msg, emailApi = .transportError msg →
        (send_email_notification now emailApi user matched_jobs).message
          = "Error sending email: " ++ msg) := by
  have hempty : matched_jobs.isEmpty = false := by
    cases matched_jobs
    · exact absurd rfl hne
    · rfl
  refine ⟨?_, ?_, ?_⟩
  · intro body hb
    cases hb
    simp [send_email_notification, hempty]
  · intro status body hb hs
    cases hb
    simp [send_email_notification, hempty, hs]
  · intro msg hm
    cases hm
    simp [send_email_notification, hempty]

/-- C7 (amended) instantiated at a non-empty match list and a 200 reply. -/
theorem send_email_success_iff_status_200_witness :
    (∀ body, (EmailOutcome.response 200 "ok") = .response 200 body →
      (send_email_notification 5 (.response 200 "ok") user0 [match0]).message
        = "Notification sent to " ++ user0.email)
    ∧ (∀ status body, (EmailOutcome.response 200 "ok") = .response status body →
        status ≠ 200 →
        (send_email_notification 5 (.response 200 "ok") user0 [match0]).message
          = "Error sending email: " ++ body)
    ∧ (∀ msg, (EmailOutcome.response 200 "ok") = .transportError msg →
        (send_email_notification 5 (.response 200 "ok") user0 [match0]).message
          = "Error sending email: " ++ msg) :=
  send_email_success_iff_status_200 5 (.response 200 "ok") user0 [match0] (by simp)

/-- C8: `last_notified` is set to the current time exactly on a successful
send (non-empty matches and status 200); an empty list, a non-200 status or
a transport error leaves the whole profile untouched; and in every case the
fields name, email, location, roles, skills and `min_salary` are unchanged. -/
theorem send_email_updates_only_last_notified (now : Int) (emailApi : EmailOutcome)
    (user : UserProfile) (matched_jobs : List MatchResult) :
    (matched_jobs ≠ [] → ∀ body, emailApi = .response 200 body →
      (send_email_notification now emailApi user matched_jobs).user
        = { user with last_notified := some now })
    ∧ (matched_jobs = [] →
        (send_email_notification now emailApi user matched_jobs).user = user)
    ∧ (∀ status body, emailApi = .response status body → status ≠ 200 →
        (send_email_notification now emailApi user matched_jobs).user = user)
    ∧ (∀ msg, emailApi = .transportError msg →
        (send_email_notification now emailApi user matched_jobs).user = user)
    ∧ ((send_email_notification now emailApi user matched_jobs).user.name = user.name
      ∧ (send_email_notification now emailApi user matched_jobs).user.email = user.email
      ∧ (send_email_notification now emailApi user matched_jobs).user.location
        = user.location
      ∧ (send_email_notification now emailApi user matched_jobs).user.roles = user.roles
      ∧ (send_email_notification now emailApi user matched_jobs).user.skills = user.skills
      ∧ (send_email_notification now emailApi user matched_jobs).user.min_salary
        = user.min_salary) := by
  refine ⟨?_, ?_, ?_, ?_, ?_⟩
  · intro hne body hb
    cases hb
    have hempty : matched_jobs.isEmpty = false := by
      cases matched_jobs
      · exact absurd rfl hne
      · rfl
    simp [send_email_notification, hempty]
  · intro h
    cases h
    rfl
  · intro status body hb hs
    cases hb
    rcases matched_jobs with _ | ⟨m, ms⟩
    · rfl
    · simp [send_email_notification, hs]
  · intro msg hm
    cases hm
    rcases matched_jobs with _ | ⟨m, ms⟩
    · rfl
    · rfl
  · rcases matched_jobs with _ | ⟨m, ms⟩
    · exact ⟨rfl, rfl, rfl, rfl, rfl, rfl⟩
    · rcases emailApi with ⟨status, body⟩ | msg
      · by_cases hs : status = 200
        · cases hs
          simp [send_email_notification]
        · simp [send_email_notification, hs]
      · exact ⟨rfl, rfl, rfl, rfl, rfl, rfl⟩

/-- C8 instantiated at a successful send to a non-empty match list. -/
theorem send_email_updates_only_last_notified_witness :
    (([match0] : List MatchResult) ≠ [] →
      ∀ body, (EmailOutcome.response 200 "ok") = .response 200 body →
      (send_email_notification 5 (.response 200 "ok") user0 [match0]).user
        = { user0 with last_notified := some 5 })
    ∧ (([match0] : List MatchResult) = [] →
        (send_email_notification 5 (.response 200 "ok") user0 [match0]).user = user0)
    ∧ (∀ status body, (EmailOutcome.response 200 "ok") = .response status body →
        status ≠ 200 →
        (send_email_notification 5 (.response 200 "ok") user0 [match0]).user = user0)
    ∧ (∀ msg, (EmailOutcome.response 200 "ok") = .transportError msg →
        (send_email_notification 5 (.response 200 "ok") user0 [match0]).user = user0)
    ∧ ((send_email_notification 5 (.response 200 "ok") user0 [match0]).user.name
        = user0.name
      ∧ (send_email_notification 5 (.response 200 "ok") user0 [match0]).user.email
        = user0.email
      ∧ (send_email_notification 5 (.response 200 "ok") user0 [match0]).user.location
        = user0.location
      ∧ (send_email_notification 5 (.response 200 "ok") user0 [match0]).user.roles
        = user0.roles
      ∧ (send_email_notification 5 (.response 200 "ok") user0 [match0]).user.skills
        = user0.skills
      ∧ (send_email_notification 5 (.response 200 "ok") user0 [match0]).user.min_salary
        = user0.min_salary) :=
  send_email_updates_only_last_notified 5 (.response 200 "ok") user0 [match0]

/-- C9: an empty match list makes the notifier return the no-matching-jobs
message with zero email API calls and the user — in particular
`last_notified` — unchanged. -/
theorem send_email_empty_matches (now : Int) (emailApi : EmailOutcome)
    (user : UserProfile) (matched_jobs : List MatchResult)
    (hempty : matched_jobs = []) :
    send_email_notification now emailApi user matched_jobs
      = { message := "No matching jobs found", user := user, emailCalls := 0 } := by
  cases hempty
  rfl

/-- C9 instantiated on the empty match list. -/
theorem send_email_empty_matches_witness :
    send_email_notification 5 (.response 200 "ok") user0 []
      = { message := "No matching jobs found", user := user0, emailCalls := 0 } :=
  send_email_empty_matches 5 (.response 200 "ok") user0 [] rfl

/-! ### Registration with an empty skills string (C10) -/

theorem listContainsSub_nil_left [DecidableEq α] (l : List α) :
    listContainsSub ([] : List α) l = true := by
  induction l with
  | nil => rfl
  | cons a as ih => simp [listContainsSub, listStartsWith, ih]

/-- C10: registering a user whose skills string is empty stores the
singleton skills list containing the empty string (not the empty list); the
empty string occurs in every description, so every posting that carries a
description receives the 10-point skill contribution and the empty string is
collected among its matched skills. -/
theorem add_user_empty_skills_matches_all (fuzz : String → String → ℕ)
    (name email location roles : String) (min_salary : Int)
    (role : String) (job : Job) (descr : String)
    (hdesc : job.description = some descr) :
    (add_user name email location roles "" min_salary).skills = [""]
    ∧ skillComponent (add_user name email location roles "" min_salary).skills job = 10
    ∧ "" ∈ (scoreJob fuzz (add_user name email location roles "" min_salary) role job).2 := by
  have hpy : ∀ hay : String, pyInStr (pyLower "") hay = true := fun hay =>
    listContainsSub_nil_left hay.data
  have hskills : (add_user name email location roles "" min_salary).skills = [""] := rfl
  obtain ⟨t, d, a, s⟩ := job
  have hd : d = some descr := hdesc
  subst hd
  refine ⟨rfl, ?_, ?_⟩
  · show skillComponent [""] (Job.mk t (some descr) a s) = 10
    simp [skillComponent, matchedSkills, hpy]
  · simp [scoreJob, skillLoop_eq, hskills, hpy]

/-- C10 instantiated at concrete registration inputs and a posting with a
description. -/
theorem add_user_empty_skills_matches_all_witness :
    (add_user "Bob" "bob@example.com" "Leeds" "Engineer" "" 0).skills = [""]
    ∧ skillComponent (add_user "Bob" "bob@example.com" "Leeds" "Engineer" "" 0).skills
        job0 = 10
    ∧ "" ∈ (scoreJob fuzz0 (add_user "Bob" "bob@example.com" "Leeds" "Engineer" "" 0)
        "Engineer" job0).2 :=
  add_user_empty_skills_matches_all fuzz0 "Bob" "bob@example.com" "Leeds" "Engineer" 0
    "Engineer" job0 "We use Python and SQL daily." rfl
